import Mathlib

/-!
Verification development for the MCP (Model-Context-Protocol) tool-server
lifecycle subsystem of the `agent-runtimes` repository.

The Python modules `agent_runtimes/mcp/servers.py`, `agent_runtimes/mcp/tools.py`,
`agent_runtimes/mcp/toolsets.py` and `agent_runtimes/routes/mcp.py` are shallowly
embedded below: pure functions become Lean functions, module-global mutable state
becomes explicit state records threaded through the operations, the process
environment and the network/process side effects become oracle parameters, and
Python exceptions become explicit outcome values.  Machine behaviour that the
claims do not touch (logging, real concurrency scheduling) is not modelled; the
outcome of each concurrent startup attempt is an oracle, which is exactly the
information the aggregation logic consumes.
-/

namespace AgentRuntimes

/-! ## Process environment (os.getenv)

`os.getenv(var)` returns `None` when the variable is unset, and the (possibly
empty) string value otherwise.  Python truthiness makes both `None` and the
empty string falsy, which is what `check_env_vars_available` tests. -/

/-- The process environment: a partial map from variable names to values. -/
abbrev Env := String → Option String

/-- Python truthiness of `os.getenv(var)`: `None` and `""` are falsy. -/
def envTruthy (env : Env) (var : String) : Bool :=
  match env var with
  | none => false
  | some s => !s.isEmpty

/-! ## servers.py : availability checking -/

/-- Embeds `check_env_vars_available(required_vars)` from
`agent_runtimes/mcp/servers.py`: `all(os.getenv(var) for var in required_vars)`. -/
def check_env_vars_available (env : Env) (required_vars : List String) : Bool :=
  required_vars.all (envTruthy env)

/-- One predefined MCP server configuration dictionary, as produced by
`get_predefined_mcp_servers` and consumed by `check_mcp_server_available` /
`create_mcp_servers_with_availability` in `servers.py`.  The fields are the
dictionary keys those functions read. -/
structure ServerConfig where
  id : String
  name : String
  package_name : String
  command : String
  args : List String
  required_env_vars : List String
  transport : String
deriving Repr, DecidableEq

/-- Embeds `check_mcp_server_available(server_config)` from `servers.py`.
`pkgAvail` is the oracle for `check_package_available` (whether `__import__`
of the package succeeds).  Python truthiness of `package_name` (a string) is
non-emptiness, and of `required_vars` (a list) is non-emptiness. -/
def check_mcp_server_available (pkgAvail : String → Bool) (env : Env)
    (cfg : ServerConfig) : Bool :=
  if !cfg.package_name.isEmpty && !pkgAvail cfg.package_name then
    false
  else if !cfg.required_env_vars.isEmpty &&
      !check_env_vars_available env cfg.required_env_vars then
    false
  else
    true

/-! ## JSON values and tool normalization

A small model of the Python/JSON values that flow through tool discovery:
enough to express tool input schemas and Python truthiness on them. -/

/-- JSON-ish Python values (tool input schemas and the like). -/
inductive Json where
  | null : Json
  | bool : Bool → Json
  | str : String → Json
  | num : Int → Json
  | arr : List Json → Json
  | obj : List (String × Json) → Json
deriving Repr

/-- Python truthiness of a JSON-ish value: `None`, `False`, `""`, `0`, `[]`
and `{}` are falsy. -/
def Json.truthy : Json → Bool
  | .null => false
  | .bool b => b
  | .str s => !s.isEmpty
  | .num n => n != 0
  | .arr xs => !xs.isEmpty
  | .obj fs => !fs.isEmpty

/-- A tool as returned by the remote MCP server during the discovery
handshake (`session.list_tools()` / `server.list_tools()`).  `description`
is `None` when the remote omits it; `inputSchema` is `none` when the remote
object lacks the attribute (`hasattr` is false). -/
structure RemoteTool where
  name : String
  description : Option String
  inputSchema : Option Json
deriving Repr

/-- Python `x or ""` on an optional string: the default when `x` is `None`
or empty. -/
def pyStrOr (x : Option String) (dflt : String) : String :=
  match x with
  | some s => if s.isEmpty then dflt else s
  | none => dflt

/-- Embeds the `MCPServerTool` pydantic model as constructed by
`discover_mcp_server_tools` in `servers.py` (fields `name`, `description`,
`enabled`, `input_schema`). -/
structure MCPServerTool where
  name : String
  description : String
  enabled : Bool
  input_schema : Option Json
deriving Repr

/-- Embeds the per-tool normalization inside `discover_mcp_server_tools`
(`servers.py` lines 193-202): `description=tool.description or ""`,
`enabled=True`, `input_schema=tool.inputSchema if hasattr(tool, "inputSchema")
else None`. -/
def discover_normalize_tool (t : RemoteTool) : MCPServerTool :=
  { name := t.name
    description := pyStrOr t.description ""
    enabled := true
    input_schema := t.inputSchema }

/-- Embeds the normalization loop of `discover_mcp_server_tools`: each remote
tool is converted by `discover_normalize_tool`. -/
def discover_mcp_server_tools (remote : List RemoteTool) : List MCPServerTool :=
  remote.map discover_normalize_tool

/-! ## servers.py : create_mcp_servers_with_availability -/

/-- Embeds the `MCPServer` pydantic model as constructed by
`create_mcp_servers_with_availability` in `servers.py`. -/
structure MCPServer where
  id : String
  name : String
  package_name : String
  command : String
  args : List String
  required_env_vars : List String
  is_available : Bool
  enabled : Bool
  transport : String
  tools : List MCPServerTool
deriving Repr

/-- Embeds one iteration of the loop in `create_mcp_servers_with_availability`
(`servers.py` lines 235-261): availability check, server construction with
`enabled=is_available` and empty tools, then tool discovery only when the
server is available and discovery was requested.  `discover` is the oracle
for what `discover_mcp_server_tools` returns for a given config. -/
def create_one (pkgAvail : String → Bool) (env : Env)
    (discover : ServerConfig → List MCPServerTool) (discover_tools : Bool)
    (cfg : ServerConfig) : MCPServer :=
  let is_available := check_mcp_server_available pkgAvail env cfg
  let server : MCPServer :=
    { id := cfg.id
      name := cfg.name
      package_name := cfg.package_name
      command := cfg.command
      args := cfg.args
      required_env_vars := cfg.required_env_vars
      is_available := is_available
      enabled := is_available
      transport := cfg.transport
      tools := [] }
  if is_available && discover_tools then
    { server with tools := discover cfg }
  else
    server

/-- Embeds `create_mcp_servers_with_availability`: the list of constructed
servers together with the list of configs for which `discover_mcp_server_tools`
was actually invoked (a process spawn).  Discovery is invoked exactly in the
`if is_available and discover_tools` branch of the loop. -/
def create_mcp_servers_with_availability (pkgAvail : String → Bool) (env : Env)
    (discover : ServerConfig → List MCPServerTool) (discover_tools : Bool)
    (predefined : List ServerConfig) : List MCPServer × List ServerConfig :=
  (predefined.map (create_one pkgAvail env discover discover_tools),
   predefined.filter
     (fun cfg => check_mcp_server_available pkgAvail env cfg && discover_tools))

/-! ## toolsets.py : module state and parallel startup

`toolsets.py` keeps module-level globals `_mcp_toolsets`, `_exit_stacks`,
`_failed_servers` and `_initialization_started`; they become an explicit
state record.  A loaded server object is identified by the `id` attribute
read via `getattr`; the result of awaiting one server's async context entry
(plus its `list_tools` call) is an oracle `StartOutcome`. -/

/-- A server object loaded by `pydantic_ai.mcp.load_mcp_servers`; `tag`
distinguishes distinct objects that happen to share an id. -/
structure Server where
  id : String
  tag : Nat
deriving Repr, DecidableEq

/-- One exit stack (`contextlib.AsyncExitStack`), identified by the server
whose context it holds. -/
abbrev Stack := Server

/-- What happens when one server's startup attempt is awaited inside
`start_one`: the context entry and `list_tools` both succeed, or
`asyncio.wait_for` raises `TimeoutError`, or some other exception (with its
type name and message) is raised. -/
inductive StartOutcome where
  | success : StartOutcome
  | timeout : StartOutcome
  | failure : String → String → StartOutcome
deriving Repr, DecidableEq

/-- The module-level globals of `toolsets.py`. -/
structure ToolsetsState where
  mcp_toolsets : List Server
  exit_stacks : List Stack
  failed_servers : List (String × String)
  initialization_started : Bool
deriving Repr, DecidableEq

/-- The state at process start: all globals empty / false. -/
def ToolsetsState.initial : ToolsetsState :=
  { mcp_toolsets := []
    exit_stacks := []
    failed_servers := []
    initialization_started := false }

/-- Python dict assignment `d[k] = v` on an association list: replaces the
existing binding in place, or appends a new one. -/
def dictInsert (m : List (String × String)) (k v : String) :
    List (String × String) :=
  if m.any (fun p => p.1 == k) then
    m.map (fun p => if p.1 == k then (k, v) else p)
  else
    m ++ [(k, v)]

/-- Python dict lookup `d.get(k)` on an association list. -/
def dictGet (m : List (String × String)) (k : String) : Option String :=
  match m.find? (fun p => p.1 == k) with
  | some p => some p.2
  | none => none

/-- `MCP_SERVER_STARTUP_TIMEOUT = 300` from `toolsets.py` (seconds). -/
def MCP_SERVER_STARTUP_TIMEOUT : Nat := 300

/-- Python `str(e)[:100]`: the first 100 characters of the message. -/
def pyTruncate100 (s : String) : String :=
  String.mk (s.toList.take 100)

/-- The settled result of one `start_one(server)` task inside
`initialize_mcp_toolsets`: on success the tuple `(server_id, True, server,
stack)`, on failure the tuple `(server_id, False, error_message, None)`. -/
inductive StartOneResult where
  | ok : String → Server → Stack → StartOneResult
  | err : String → String → StartOneResult
deriving Repr, DecidableEq

/-- The started server carried by a successful `start_one` result. -/
def okServerOf : StartOneResult → Option Server
  | .ok _ srv _ => some srv
  | .err _ _ => none

/-- The `(server_id, reason)` pair carried by a failed `start_one` result. -/
def errOf : StartOneResult → Option (String × String)
  | .ok _ _ _ => none
  | .err k v => some (k, v)

/-- Embeds the inner coroutine `start_one` of `initialize_mcp_toolsets`
(`toolsets.py` lines 176-204).  On `TimeoutError` the recorded reason is
the f-string `"Timeout after {MCP_SERVER_STARTUP_TIMEOUT}s"`; on any other
exception it is `"{type(e).__name__}: {str(e)[:100]}"`.  The failed stack is
closed (best effort) and dropped. -/
def start_one (outcome : Server → StartOutcome) (server : Server) :
    StartOneResult :=
  match outcome server with
  | .success => .ok server.id server server
  | .timeout =>
      .err server.id
        ("Timeout after " ++ toString MCP_SERVER_STARTUP_TIMEOUT ++ "s")
  | .failure tyName msg => .err server.id (tyName ++ ": " ++ pyTruncate100 msg)

/-- Embeds the result-collection loop of `initialize_mcp_toolsets`
(`toolsets.py` lines 208-215): successes are appended to `_mcp_toolsets`
and `_exit_stacks`, failures recorded in `_failed_servers`. -/
def collect_results (st : ToolsetsState) (results : List StartOneResult) :
    ToolsetsState :=
  results.foldl
    (fun acc r =>
      match r with
      | .ok _ server stack =>
          { acc with
            mcp_toolsets := acc.mcp_toolsets ++ [server]
            exit_stacks := acc.exit_stacks ++ [stack] }
      | .err sid reason =>
          { acc with failed_servers := dictInsert acc.failed_servers sid reason })
    st

/-- Embeds `initialize_mcp_toolsets` (`toolsets.py` lines 139-220) from the
point where the config file exists and `load_mcp_servers` returned `servers`.
The guard returns unchanged when initialization already started; otherwise
every server is started (one gathered task each, `return_exceptions=True`,
so no task's failure cancels the others) and the settled results collected. -/
def initialize_mcp_toolsets (outcome : Server → StartOutcome)
    (servers : List Server) (st : ToolsetsState) : ToolsetsState :=
  if st.initialization_started then
    st
  else
    let st := { st with initialization_started := true }
    if servers.isEmpty then
      st
    else
      collect_results st (servers.map (start_one outcome))

/-! ## toolsets.py : shutdown -/

/-- Exceptions that an exit stack's `__aexit__` can raise during shutdown, as
discriminated by the `except` clauses of `shutdown_mcp_toolsets`: a
`RuntimeError` with its message, or any other `Exception` subclass with its
type name and message. -/
inductive CloseExn where
  | runtimeError : String → CloseExn
  | otherExn : String → String → CloseExn
deriving Repr, DecidableEq

/-- The outcome of awaiting one stack's `__aexit__`. -/
abbrev CloseOutcome := Option CloseExn

/-- The log record emitted by one iteration of the shutdown loop. -/
inductive CloseLog where
  | closedOk : Nat → CloseLog
  | debugCancelScope : Nat → CloseLog
  | warningError : Nat → String → CloseLog
deriving Repr, DecidableEq

/-- The `except` clauses of one iteration of the shutdown loop
(`toolsets.py` lines 236-245): a handled exception yields a log record and
execution continues; an unhandled one would propagate (`.error`).  A
`RuntimeError` whose lowercased message contains "cancel scope" is logged at
debug level, every other `RuntimeError` and every other `Exception` at
warning level — so every modelled exception is handled. -/
def handle_close_exn (i : Nat) (e : CloseExn) : Except CloseExn CloseLog :=
  match e with
  | .runtimeError msg =>
      if (msg.toLower.splitOn "cancel scope").length > 1 then
        .ok (.debugCancelScope i)
      else
        .ok (.warningError i msg)
  | .otherExn tyName msg => .ok (.warningError i (tyName ++ ": " ++ msg))

/-- One iteration of the shutdown loop (`toolsets.py` lines 235-245) with
Python exception semantics made explicit: await the stack's `__aexit__`
(outcome given by the `close` oracle) inside `try`/`except`; a handled
exception is logged and execution continues; an exception the handlers
re-raised aborts the whole loop via `.error`. -/
def close_step (close : Stack → CloseOutcome)
    (acc : Except CloseExn (List Stack × List CloseLog)) (p : Nat × Stack) :
    Except CloseExn (List Stack × List CloseLog) :=
  match acc with
  | .error e => .error e
  | .ok (attempted, logs) =>
      match close p.2 with
      | none => .ok (attempted ++ [p.2], logs ++ [.closedOk p.1])
      | some e =>
          match handle_close_exn p.1 e with
          | .ok log => .ok (attempted ++ [p.2], logs ++ [log])
          | .error e' => .error e'

/-- The shutdown loop over `_exit_stacks`: every stack's close is attempted
in order unless an unhandled exception propagates.  Returns the stacks whose
close was actually attempted and the emitted logs. -/
def close_all_stacks (close : Stack → CloseOutcome) (stackList : List Stack) :
    Except CloseExn (List Stack × List CloseLog) :=
  stackList.enum.foldl (close_step close) (.ok ([], []))

/-- Embeds `shutdown_mcp_toolsets` (`toolsets.py` lines 223-254): close every
exit stack (swallowing handled exceptions), then clear all four globals.
`.error` would mean an exception propagated to the caller. -/
def shutdown_mcp_toolsets (close : Stack → CloseOutcome) (st : ToolsetsState) :
    Except CloseExn (ToolsetsState × List Stack × List CloseLog) :=
  match close_all_stacks close st.exit_stacks with
  | .error e => .error e
  | .ok (attempted, logs) =>
      .ok
        ({ mcp_toolsets := []
           exit_stacks := []
           failed_servers := []
           initialization_started := false },
         attempted, logs)

/-! ## toolsets.py : queries -/

/-- Embeds `get_mcp_toolsets` (`toolsets.py` lines 257-269): a copy of
`_mcp_toolsets`. -/
def get_mcp_toolsets (st : ToolsetsState) : List Server :=
  st.mcp_toolsets

/-- The status dictionary returned by `get_mcp_toolsets_status`. -/
structure ToolsetsStatus where
  initialized : Bool
  ready_count : Nat
  failed_count : Nat
  ready_servers : List String
  failed_servers : List (String × String)
deriving Repr, DecidableEq

/-- Embeds `get_mcp_toolsets_status` (`toolsets.py` lines 272-295). -/
def get_mcp_toolsets_status (st : ToolsetsState) : ToolsetsStatus :=
  { initialized := st.initialization_started
    ready_count := st.mcp_toolsets.length
    failed_count := st.failed_servers.length
    ready_servers := st.mcp_toolsets.map (fun s => s.id)
    failed_servers := st.failed_servers }

/-! ## toolsets.py : get_mcp_toolsets_info and argument redaction

Launch arguments are modelled at character granularity (Python string slicing
`arg[:10]` / `arg[-4:]` is character based). -/

/-- One entry of a server's `args` list: a Python string (list of characters)
or some non-string value. -/
inductive PyArg where
  | str : List Char → PyArg
  | nonStr : Int → PyArg
deriving Repr, DecidableEq

/-- Embeds the per-argument redaction in `get_mcp_toolsets_info`
(`toolsets.py` lines 318-323): a string argument of more than 50 characters
becomes `arg[:10] + "..." + arg[-4:]`; everything else passes through. -/
def redact_arg : PyArg → PyArg
  | .str s =>
      if s.length > 50 then
        .str (s.take 10 ++ ['.', '.', '.'] ++ s.drop (s.length - 4))
      else
        .str s
  | .nonStr v => .nonStr v

/-- The attributes of one loaded toolset object that
`get_mcp_toolsets_info` reads via `hasattr`/`getattr`; `none` models a
missing attribute. -/
structure ServerAttrs where
  type_name : String
  id : Option String
  command : Option String
  args : Option (List PyArg)
  url : Option String
deriving Repr, DecidableEq

/-- The info dictionary built for one server by `get_mcp_toolsets_info`:
a key is present exactly when the corresponding attribute exists. -/
structure ServerInfo where
  type_name : String
  id : Option String
  command : Option String
  args : Option (List PyArg)
  url : Option String
deriving Repr, DecidableEq

/-- The per-server body of the `get_mcp_toolsets_info` loop: `type`, then
`id`/`command`/`url` copied when present, and `args` redacted element-wise. -/
def server_info_of (a : ServerAttrs) : ServerInfo :=
  { type_name := a.type_name
    id := a.id
    command := a.command
    args := a.args.map (List.map redact_arg)
    url := a.url }

/-- Embeds `get_mcp_toolsets_info` (`toolsets.py` lines 298-328): one info
dictionary per loaded toolset, with sensitive-looking args redacted.
`attrs` is the attribute view of a loaded server object. -/
def get_mcp_toolsets_info (attrs : Server → ServerAttrs) (st : ToolsetsState) :
    List ServerInfo :=
  st.mcp_toolsets.map (fun s => server_info_of (attrs s))

/-! ## tools.py : get_tools_from_mcp normalization -/

/-- The default `{"type": "object", "properties": {}, "required": []}`
schema substituted by `get_tools_from_mcp` when a remote tool has no (truthy)
input schema. -/
def emptyObjectSchema : Json :=
  .obj [("type", .str "object"), ("properties", .obj []), ("required", .arr [])]

/-- The dictionary built per tool by `get_tools_from_mcp`: exactly the keys
`name`, `description` and `inputSchema`. -/
structure ToolDict where
  name : String
  description : String
  inputSchema : Json
deriving Repr

/-- Embeds the per-tool conversion in `get_tools_from_mcp`
(`agent_runtimes/mcp/tools.py` lines 83-100): `description=tool.description
or ""`; `inputSchema` is the remote schema when the attribute exists and is
truthy, else the empty-object schema. -/
def convert_tool (t : RemoteTool) : ToolDict :=
  { name := t.name
    description := pyStrOr t.description ""
    inputSchema :=
      match t.inputSchema with
      | some j => if j.truthy then j else emptyObjectSchema
      | none => emptyObjectSchema }

/-- Embeds the conversion loop of `get_tools_from_mcp`. -/
def get_tools_from_mcp (remote : List RemoteTool) : List ToolDict :=
  remote.map convert_tool

/-! ## servers.py : module-level cache (get_mcp_servers) -/

/-- The module global `_mcp_servers` of `servers.py`: `None` until first
computed. -/
structure ServersCacheState where
  mcp_servers : Option (List MCPServer)
deriving Repr

/-- The result of one `get_mcp_servers` call: the new cache state, the
returned list, and whether `create_mcp_servers_with_availability` was run
on this call. -/
structure GetServersResult where
  state : ServersCacheState
  servers : List MCPServer
  recomputed : Bool
deriving Repr

/-- Embeds `get_mcp_servers` (`servers.py` lines 288-310): under the module
lock, recompute (via `create_mcp_servers_with_availability`, abstracted as
`compute`) only when the cache is `None` or `force_refresh` is set;
otherwise return the cached list. -/
def get_mcp_servers (compute : Unit → List MCPServer) (force_refresh : Bool)
    (st : ServersCacheState) : GetServersResult :=
  match st.mcp_servers, force_refresh with
  | some cached, false => { state := st, servers := cached, recomputed := false }
  | _, _ =>
      let fresh := compute ()
      { state := { mcp_servers := some fresh }, servers := fresh,
        recomputed := true }

/-- Embeds `get_mcp_servers_sync` (`servers.py` lines 313-324):
`_mcp_servers or []`. -/
def get_mcp_servers_sync (st : ServersCacheState) : List MCPServer :=
  match st.mcp_servers with
  | some l => if l.isEmpty then [] else l
  | none => []

/-- Embeds `initialize_mcp_servers` (`servers.py` lines 327-339): always a
forced refresh. -/
def initialize_mcp_servers (compute : Unit → List MCPServer)
    (st : ServersCacheState) : GetServersResult :=
  get_mcp_servers compute true st

/-! ## routes/mcp.py : enable_catalog_server and the lifecycle manager

`agent_runtimes/mcp/lifecycle.py` is not part of the studied sources (only
its callers and re-exports are), so the lifecycle manager itself is modelled
from the spec; the route handler `enable_catalog_server` is embedded from
`agent_runtimes/routes/mcp.py` lines 33-84. -/

/-- Modelled from the spec: a live `ServerInstance` tracked by the Lifecycle
Manager registry, with its descriptor config and an opaque session handle. -/
structure ServerInstance where
  key : String
  config : MCPServer
  sessionTag : Nat
deriving Repr

/-- Modelled from the spec: the Lifecycle Manager's registry state — the
authoritative map of server key to Running instance, the failure reasons,
and a probe counting how many processes were ever spawned. -/
structure LifecycleState where
  running : List (String × ServerInstance)
  failed : List (String × String)
  spawnCount : Nat
deriving Repr

/-- Modelled from the spec: `isRunning(serverId)` — pure query over the
registry. -/
def is_server_running (st : LifecycleState) (key : String) : Bool :=
  (st.running.find? (fun p => p.1 == key)).isSome

/-- Modelled from the spec: `getRunning`-style lookup of the Running
instance for a key, if any. -/
def get_running_server (st : LifecycleState) (key : String) :
    Option ServerInstance :=
  match st.running.find? (fun p => p.1 == key) with
  | some p => some p.2
  | none => none

/-- Modelled from the spec: `start(descriptor)` for a key with no live
entry — spawns a process (the spawn-count probe increments) and atomically
records the instance as Running, or records the failure reason.  `outcome`
gives the failure reason, if any, for the attempt. -/
def start_server (outcome : String → Option String) (st : LifecycleState)
    (key : String) (cfg : MCPServer) : LifecycleState × Option ServerInstance :=
  match outcome key with
  | none =>
      let inst : ServerInstance :=
        { key := key, config := cfg, sessionTag := st.spawnCount }
      ({ st with
          running := st.running ++ [(key, inst)]
          spawnCount := st.spawnCount + 1 },
       some inst)
  | some reason =>
      ({ st with
          failed := dictInsert st.failed key reason
          spawnCount := st.spawnCount + 1 },
       none)

/-- The HTTP response of the `enable_catalog_server` route. -/
inductive EnableResponse where
  | ok : MCPServer → EnableResponse
  | notFound : EnableResponse
  | startFailed : String → EnableResponse
deriving Repr

/-- Embeds the route handler `enable_catalog_server`
(`agent_runtimes/routes/mcp.py` lines 33-84): 404 when the name is not in
the catalog; if the lifecycle manager reports the server already running and
yields its instance, return that instance's config without starting anything;
otherwise start the server, answering 500 with the recorded failure reason
when no instance results. -/
def enable_catalog_server (outcome : String → Option String)
    (catalog : List (String × MCPServer)) (st : LifecycleState)
    (server_name : String) : LifecycleState × EnableResponse :=
  match catalog.find? (fun p => p.1 == server_name) with
  | none => (st, .notFound)
  | some entry =>
      match
        (if is_server_running st server_name then
          get_running_server st server_name
        else
          none) with
      | some inst => (st, .ok inst.config)
      | none =>
          match start_server outcome st server_name entry.2 with
          | (st', some inst) => (st', .ok inst.config)
          | (st', none) =>
              (st',
               .startFailed ((dictGet st'.failed server_name).getD
                 "Unknown error"))

/-- A minimal concrete `MCPServer` value, used by concrete instantiations. -/
def mkPlainServer (sid : String) : MCPServer :=
  { id := sid
    name := sid
    package_name := ""
    command := ""
    args := []
    required_env_vars := []
    is_available := true
    enabled := true
    transport := "stdio"
    tools := [] }

/-! ## Association-list (Python dict) lemmas -/

lemma keys_any_eq_false {m : List (String × String)} {k : String}
    (h : k ∉ m.map Prod.fst) : m.any (fun p => p.1 == k) = false := by
  rw [List.any_eq_false]
  intro p hp hbeq
  exact h (List.mem_map.mpr ⟨p, hp, (beq_iff_eq.mp hbeq)⟩)

lemma dictInsert_of_not_mem {m : List (String × String)} {k : String}
    (v : String) (h : k ∉ m.map Prod.fst) :
    dictInsert m k v = m ++ [(k, v)] := by
  simp [dictInsert, keys_any_eq_false h]

lemma dictGet_eq_none_of_not_mem {m : List (String × String)} {k : String}
    (h : k ∉ m.map Prod.fst) : dictGet m k = none := by
  induction m with
  | nil => rfl
  | cons p rest ih =>
      simp only [List.map_cons, List.mem_cons, not_or] at h
      have hne : (p.1 == k) = false := by
        apply beq_eq_false_iff_ne.mpr
        intro he
        exact h.1 he.symm
      have htail := ih h.2
      unfold dictGet at htail ⊢
      rw [List.find?_cons_of_neg _ (by simp [hne])]
      exact htail

lemma dictGet_of_mem_nodup {m : List (String × String)} {k v : String}
    (hnd : (m.map Prod.fst).Nodup) (hmem : (k, v) ∈ m) :
    dictGet m k = some v := by
  induction m with
  | nil => cases hmem
  | cons p rest ih =>
      simp only [List.map_cons, List.nodup_cons] at hnd
      rcases List.mem_cons.mp hmem with heq | htail
      · subst heq
        simp [dictGet, List.find?]
      · have hk : k ∈ rest.map Prod.fst :=
          List.mem_map.mpr ⟨(k, v), htail, rfl⟩
        have hne : (p.1 == k) = false := by
          apply beq_eq_false_iff_ne.mpr
          intro he
          exact hnd.1 (by rw [he]; exact hk)
        have hrest := ih hnd.2 htail
        unfold dictGet at hrest ⊢
        rw [List.find?_cons_of_neg _ (by simp [hne])]
        exact hrest

lemma foldl_dictInsert_fresh :
    ∀ (entries m0 : List (String × String)),
      (entries.map Prod.fst).Nodup →
      (∀ k ∈ entries.map Prod.fst, k ∉ m0.map Prod.fst) →
      entries.foldl (fun m p => dictInsert m p.1 p.2) m0 = m0 ++ entries := by
  intro entries
  induction entries with
  | nil => intro m0 _ _; simp
  | cons p rest ih =>
      intro m0 hnd hdisj
      simp only [List.map_cons, List.nodup_cons] at hnd
      have hp : p.1 ∉ m0.map Prod.fst := hdisj p.1 (by simp)
      have hins : dictInsert m0 p.1 p.2 = m0 ++ [(p.1, p.2)] :=
        dictInsert_of_not_mem p.2 hp
      have hdisj' : ∀ k ∈ rest.map Prod.fst,
          k ∉ (m0 ++ [(p.1, p.2)]).map Prod.fst := by
        intro k hk
        simp only [List.map_append, List.mem_append, List.map_cons,
          List.map_nil, List.mem_singleton, not_or]
        exact ⟨hdisj k (by simp [hk]), fun he => hnd.1 (he ▸ hk)⟩
      calc (p :: rest).foldl (fun m q => dictInsert m q.1 q.2) m0
          = rest.foldl (fun m q => dictInsert m q.1 q.2) (m0 ++ [(p.1, p.2)]) := by
            simp [List.foldl_cons, hins]
        _ = (m0 ++ [(p.1, p.2)]) ++ rest := ih (m0 ++ [(p.1, p.2)]) hnd.2 hdisj'
        _ = m0 ++ (p :: rest) := by simp

/-! ## C10 and C5 -/

/-- C10: an environment variable that is set but equal to the empty string is
treated as absent: `check_env_vars_available` returns true exactly when every
listed variable is set to a non-empty value, and a server configuration with
a required variable set to `""` fails `check_mcp_server_available`. -/
theorem check_env_vars_empty_string_unavailable :
    (∀ (env : Env) (vars : List String),
      check_env_vars_available env vars = true ↔
        ∀ v ∈ vars, ∃ s, env v = some s ∧ ¬s.isEmpty) ∧
    (∀ (pkgAvail : String → Bool) (env : Env) (cfg : ServerConfig)
        (v : String), v ∈ cfg.required_env_vars → env v = some "" →
      check_mcp_server_available pkgAvail env cfg = false) := by
  constructor
  · intro env vars
    simp only [check_env_vars_available, List.all_eq_true]
    constructor
    · intro h v hv
      have := h v hv
      unfold envTruthy at this
      cases henv : env v with
      | none => rw [henv] at this; cases this
      | some s =>
          rw [henv] at this
          exact ⟨s, rfl, by simpa using this⟩
    · intro h v hv
      obtain ⟨s, hs, hne⟩ := h v hv
      unfold envTruthy
      rw [hs]
      simpa using hne
  · intro pkgAvail env cfg v hv henv
    unfold check_mcp_server_available
    split
    · rfl
    · have hvars : cfg.required_env_vars.isEmpty = false := by
        cases h : cfg.required_env_vars with
        | nil => rw [h] at hv; cases hv
        | cons a l => rfl
      have hcheck : check_env_vars_available env cfg.required_env_vars = false := by
        unfold check_env_vars_available
        rw [List.all_eq_false]
        refine ⟨v, hv, ?_⟩
        simp [envTruthy, henv]
        decide
      simp [hvars, hcheck]

/-- Witness for C10 at a concrete configuration whose single required
variable is set to the empty string. -/
theorem check_env_vars_empty_string_unavailable_witness :
    ("TAVILY_API_KEY" ∈
        (ServerConfig.mk "tavily-mcp" "Tavily MCP Server" "tavily_mcp" "uvx"
          ["tavily-mcp"] ["TAVILY_API_KEY"] "stdio").required_env_vars ∧
      (fun (_ : String) => some "") "TAVILY_API_KEY" = some "") ∧
    check_mcp_server_available (fun _ => true) (fun _ => some "")
      (ServerConfig.mk "tavily-mcp" "Tavily MCP Server" "tavily_mcp" "uvx"
        ["tavily-mcp"] ["TAVILY_API_KEY"] "stdio") = false :=
  ⟨⟨by simp, rfl⟩,
    check_env_vars_empty_string_unavailable.2 (fun _ => true) (fun _ => some "")
      (ServerConfig.mk "tavily-mcp" "Tavily MCP Server" "tavily_mcp" "uvx"
        ["tavily-mcp"] ["TAVILY_API_KEY"] "stdio") "TAVILY_API_KEY"
      (by simp) rfl⟩

/-- C5: a descriptor with a required environment variable unset never starts:
the availability check is false, the constructed server is unavailable and
disabled with an empty tools list, and tool discovery (the only process
spawn) is never invoked for that configuration. -/
theorem unset_env_var_blocks_server_start
    (pkgAvail : String → Bool) (env : Env)
    (discover : ServerConfig → List MCPServerTool) (discover_tools : Bool)
    (predefined : List ServerConfig) (cfg : ServerConfig) (v : String)
    (hv : v ∈ cfg.required_env_vars) (henv : env v = none) :
    check_mcp_server_available pkgAvail env cfg = false ∧
    (create_one pkgAvail env discover discover_tools cfg).is_available = false ∧
    (create_one pkgAvail env discover discover_tools cfg).enabled = false ∧
    (create_one pkgAvail env discover discover_tools cfg).tools = [] ∧
    cfg ∉ (create_mcp_servers_with_availability pkgAvail env discover
      discover_tools predefined).2 := by
  have hcheck : check_mcp_server_available pkgAvail env cfg = false := by
    unfold check_mcp_server_available
    split
    · rfl
    · have hvars : cfg.required_env_vars.isEmpty = false := by
        cases h : cfg.required_env_vars with
        | nil => rw [h] at hv; cases hv
        | cons a l => rfl
      have henvs : check_env_vars_available env cfg.required_env_vars = false := by
        unfold check_env_vars_available
        rw [List.all_eq_false]
        exact ⟨v, hv, by simp [envTruthy, henv]⟩
      simp [hvars, henvs]
  refine ⟨hcheck, ?_, ?_, ?_, ?_⟩
  · simp [create_one, hcheck]
  · simp [create_one, hcheck]
  · simp [create_one, hcheck]
  · intro hmem
    unfold create_mcp_servers_with_availability at hmem
    have := List.of_mem_filter hmem
    rw [hcheck] at this
    simp at this

/-- Witness for C5: a concrete config requiring `TAVILY_API_KEY` in an
empty environment. -/
theorem unset_env_var_blocks_server_start_witness :
    ("TAVILY_API_KEY" ∈
        (ServerConfig.mk "tavily-mcp" "Tavily MCP Server" "tavily_mcp" "uvx"
          ["tavily-mcp"] ["TAVILY_API_KEY"] "stdio").required_env_vars ∧
      (fun (_ : String) => (none : Option String)) "TAVILY_API_KEY" = none) ∧
    check_mcp_server_available (fun _ => true) (fun _ => none)
      (ServerConfig.mk "tavily-mcp" "Tavily MCP Server" "tavily_mcp" "uvx"
        ["tavily-mcp"] ["TAVILY_API_KEY"] "stdio") = false ∧
    (create_one (fun _ => true) (fun _ => none) (fun _ => []) true
      (ServerConfig.mk "tavily-mcp" "Tavily MCP Server" "tavily_mcp" "uvx"
        ["tavily-mcp"] ["TAVILY_API_KEY"] "stdio")).is_available = false ∧
    (create_one (fun _ => true) (fun _ => none) (fun _ => []) true
      (ServerConfig.mk "tavily-mcp" "Tavily MCP Server" "tavily_mcp" "uvx"
        ["tavily-mcp"] ["TAVILY_API_KEY"] "stdio")).enabled = false ∧
    (create_one (fun _ => true) (fun _ => none) (fun _ => []) true
      (ServerConfig.mk "tavily-mcp" "Tavily MCP Server" "tavily_mcp" "uvx"
        ["tavily-mcp"] ["TAVILY_API_KEY"] "stdio")).tools = [] ∧
    (ServerConfig.mk "tavily-mcp" "Tavily MCP Server" "tavily_mcp" "uvx"
        ["tavily-mcp"] ["TAVILY_API_KEY"] "stdio") ∉
      (create_mcp_servers_with_availability (fun _ => true) (fun _ => none)
        (fun _ => []) true
        [ServerConfig.mk "tavily-mcp" "Tavily MCP Server" "tavily_mcp" "uvx"
          ["tavily-mcp"] ["TAVILY_API_KEY"] "stdio"]).2 :=
  ⟨⟨by simp, rfl⟩,
    unset_env_var_blocks_server_start (fun _ => true) (fun _ => none)
      (fun _ => []) true
      [ServerConfig.mk "tavily-mcp" "Tavily MCP Server" "tavily_mcp" "uvx"
        ["tavily-mcp"] ["TAVILY_API_KEY"] "stdio"]
      (ServerConfig.mk "tavily-mcp" "Tavily MCP Server" "tavily_mcp" "uvx"
        ["tavily-mcp"] ["TAVILY_API_KEY"] "stdio") "TAVILY_API_KEY"
      (by simp) rfl⟩

/-! ## C9 : the descriptor cache -/

/-- C9 counterexample: `get_mcp_servers` is NOT recomputed on every call.
The first call (empty cache) recomputes; the second call without
`force_refresh` is served from the process-wide `_mcp_servers` cache — it
does not recompute, and it returns the first call's list even though the
descriptor source now produces a different one. -/
theorem get_mcp_servers_cache_counterexample :
    (get_mcp_servers (fun _ => [mkPlainServer "a"]) false
      { mcp_servers := none }).recomputed = true ∧
    (get_mcp_servers (fun _ => [mkPlainServer "b"]) false
      (get_mcp_servers (fun _ => [mkPlainServer "a"]) false
        { mcp_servers := none }).state).recomputed = false ∧
    ((get_mcp_servers (fun _ => [mkPlainServer "b"]) false
      (get_mcp_servers (fun _ => [mkPlainServer "a"]) false
        { mcp_servers := none }).state).servers).map MCPServer.id = ["a"] ∧
    (([mkPlainServer "b"]).map MCPServer.id = ["b"] ∧ ("a" : String) ≠ "b") :=
  ⟨rfl, rfl, rfl, rfl, by decide⟩

/-- C9 as amended: the predefined server list is computed on the first
`get_mcp_servers` call and cached in the module-global `_mcp_servers`; later
calls without `force_refresh` serve the cached list unchanged; passing
`force_refresh` (as `initialize_mcp_servers` does at startup) recomputes. -/
theorem get_mcp_servers_cache_behavior :
    (∀ (compute : Unit → List MCPServer) (st : ServersCacheState)
        (cached : List MCPServer), st.mcp_servers = some cached →
      get_mcp_servers compute false st
        = { state := st, servers := cached, recomputed := false }) ∧
    (∀ (compute : Unit → List MCPServer) (st : ServersCacheState),
      st.mcp_servers = none →
      get_mcp_servers compute false st
        = { state := { mcp_servers := some (compute ()) },
            servers := compute (), recomputed := true }) ∧
    (∀ (compute : Unit → List MCPServer) (st : ServersCacheState),
      initialize_mcp_servers compute st
        = { state := { mcp_servers := some (compute ()) },
            servers := compute (), recomputed := true }) := by
  refine ⟨?_, ?_, ?_⟩
  · intro compute st cached hc
    simp [get_mcp_servers, hc]
  · intro compute st hc
    simp [get_mcp_servers, hc]
  · intro compute st
    cases h : st.mcp_servers <;>
      simp [initialize_mcp_servers, get_mcp_servers, h]

/-- Witness for C9's amended statement at a concrete cache state. -/
theorem get_mcp_servers_cache_behavior_witness :
    (ServersCacheState.mk (some [mkPlainServer "a"])).mcp_servers
        = some [mkPlainServer "a"] ∧
    get_mcp_servers (fun _ => [mkPlainServer "b"]) false
        (ServersCacheState.mk (some [mkPlainServer "a"]))
      = { state := ServersCacheState.mk (some [mkPlainServer "a"]),
          servers := [mkPlainServer "a"], recomputed := false } :=
  ⟨rfl,
    get_mcp_servers_cache_behavior.1 (fun _ => [mkPlainServer "b"])
      (ServersCacheState.mk (some [mkPlainServer "a"]))
      [mkPlainServer "a"] rfl⟩

/-! ## C6 : tool normalization -/

/-- C6 counterexample: the normalization inside `discover_mcp_server_tools`
(`servers.py`) does NOT produce `{name, description, inputSchema}` with an
empty-object-schema default — it produces an `MCPServerTool` that also has
an `enabled` field, and when the remote omits the schema the recorded
`input_schema` is `None`, not the empty-object schema. -/
theorem discover_tools_schema_default_counterexample :
    discover_mcp_server_tools
        [{ name := "toolA", description := none, inputSchema := none }]
      = [{ name := "toolA", description := "", enabled := true,
           input_schema := none }] ∧
    (none : Option Json) ≠ some emptyObjectSchema :=
  ⟨rfl, by simp⟩

/-- C6 as amended: the `get_tools_from_mcp` normalization (`tools.py`) maps
every remote tool to a dictionary with exactly `name`, `description` and
`inputSchema`, defaulting `description` to `""` and `inputSchema` to the
empty-object schema when the remote omits them (and keeping a present,
truthy schema); `discover_mcp_server_tools` instead records `input_schema =
None` on omission (see the counterexample). -/
theorem get_tools_from_mcp_normalization
    (remote : List RemoteTool) (t : RemoteTool) (ht : t ∈ remote) :
    convert_tool t ∈ get_tools_from_mcp remote ∧
    (convert_tool t).name = t.name ∧
    (t.description = none → (convert_tool t).description = "") ∧
    (t.inputSchema = none → (convert_tool t).inputSchema = emptyObjectSchema) ∧
    (∀ j : Json, t.inputSchema = some j → j.truthy = true →
      (convert_tool t).inputSchema = j) := by
  refine ⟨List.mem_map.mpr ⟨t, ht, rfl⟩, rfl, ?_, ?_, ?_⟩
  · intro hd
    simp [convert_tool, pyStrOr, hd]
  · intro hs
    simp [convert_tool, hs]
  · intro j hj htr
    simp [convert_tool, hj, htr]

/-- Witness for C6's amended statement: one remote tool omitting both
description and schema. -/
theorem get_tools_from_mcp_normalization_witness :
    (RemoteTool.mk "toolA" none none
        ∈ [RemoteTool.mk "toolA" none none] ∧
      (RemoteTool.mk "toolA" none none).description = none ∧
      (RemoteTool.mk "toolA" none none).inputSchema = none) ∧
    convert_tool (RemoteTool.mk "toolA" none none)
        ∈ get_tools_from_mcp [RemoteTool.mk "toolA" none none] ∧
    (convert_tool (RemoteTool.mk "toolA" none none)).name = "toolA" ∧
    (convert_tool (RemoteTool.mk "toolA" none none)).description = "" ∧
    (convert_tool (RemoteTool.mk "toolA" none none)).inputSchema
      = emptyObjectSchema := by
  have h := get_tools_from_mcp_normalization [RemoteTool.mk "toolA" none none]
    (RemoteTool.mk "toolA" none none) (by simp)
  exact ⟨⟨by simp, rfl, rfl⟩, h.1, h.2.1, h.2.2.1 rfl, h.2.2.2.1 rfl⟩

/-! ## C7 : argument redaction -/

/-- C7: `get_mcp_toolsets_info` exposes every server's args only through
`redact_arg`; a string argument longer than 50 characters is replaced by its
first 10 characters, a literal `"..."` and its last 4 characters — a
fixed-length 17-character value, never the original — while arguments of at
most 50 characters and non-string arguments pass through unchanged. -/
theorem get_mcp_toolsets_info_redaction :
    (∀ (attrs : Server → ServerAttrs) (st : ToolsetsState) (s : Server),
      s ∈ st.mcp_toolsets →
      server_info_of (attrs s) ∈ get_mcp_toolsets_info attrs st ∧
      (server_info_of (attrs s)).args
        = ((attrs s).args).map (List.map redact_arg)) ∧
    (∀ chars : List Char, 50 < chars.length →
      redact_arg (.str chars)
        = .str (chars.take 10 ++ ['.', '.', '.']
            ++ chars.drop (chars.length - 4)) ∧
      (chars.take 10 ++ ['.', '.', '.']
        ++ chars.drop (chars.length - 4)).length = 17 ∧
      redact_arg (.str chars) ≠ .str chars) ∧
    (∀ chars : List Char, chars.length ≤ 50 →
      redact_arg (.str chars) = .str chars) ∧
    (∀ v : Int, redact_arg (.nonStr v) = .nonStr v) := by
  refine ⟨?_, ?_, ?_, ?_⟩
  · intro attrs st s hs
    exact ⟨List.mem_map.mpr ⟨s, hs, rfl⟩, rfl⟩
  · intro chars hlen
    have hred : redact_arg (.str chars)
        = .str (chars.take 10 ++ ['.', '.', '.']
            ++ chars.drop (chars.length - 4)) := by
      simp only [redact_arg]
      rw [if_pos hlen]
    have hcount : (chars.take 10 ++ ['.', '.', '.']
        ++ chars.drop (chars.length - 4)).length = 17 := by
      simp only [List.length_append, List.length_take, List.length_drop,
        List.length_cons, List.length_nil]
      omega
    refine ⟨hred, hcount, ?_⟩
    rw [hred]
    intro hcontra
    have := congrArg
      (fun a => match a with | PyArg.str l => l.length | PyArg.nonStr _ => 0)
      hcontra
    simp only at this
    rw [hcount] at this
    omega
  · intro chars hlen
    simp only [redact_arg]
    rw [if_neg (by omega)]
  · intro v
    rfl

/-- Witness for C7 at a 55-character argument, a short argument, and a
non-string argument. -/
theorem get_mcp_toolsets_info_redaction_witness :
    ((List.replicate 55 'x').length > 50 ∧
      redact_arg (.str (List.replicate 55 'x'))
        = .str ((List.replicate 55 'x').take 10 ++ ['.', '.', '.']
            ++ (List.replicate 55 'x').drop ((List.replicate 55 'x').length - 4)) ∧
      ((List.replicate 55 'x').take 10 ++ ['.', '.', '.']
        ++ (List.replicate 55 'x').drop ((List.replicate 55 'x').length - 4)).length
          = 17) ∧
    (['o', 'k'].length ≤ 50 ∧ redact_arg (.str ['o', 'k']) = .str ['o', 'k']) ∧
    redact_arg (.nonStr 7) = .nonStr 7 := by
  have h2 := (get_mcp_toolsets_info_redaction.2.1 (List.replicate 55 'x')
    (by decide))
  have h3 := get_mcp_toolsets_info_redaction.2.2.1 ['o', 'k'] (by decide)
  have h4 := get_mcp_toolsets_info_redaction.2.2.2 7
  exact ⟨⟨by decide, h2.1, h2.2.1⟩, ⟨by decide, h3⟩, h4⟩

/-! ## C8 : idempotent enable -/

/-- C8: enabling a catalog server that is already running is an idempotent
no-op — the route returns the existing instance's config, the lifecycle
registry is unchanged, and the spawn-count probe does not move (no second
process). -/
theorem enable_catalog_server_idempotent
    (outcome : String → Option String) (catalog : List (String × MCPServer))
    (st : LifecycleState) (server_name : String) (entry : String × MCPServer)
    (inst : ServerInstance)
    (hcat : catalog.find? (fun p => p.1 == server_name) = some entry)
    (hrun : get_running_server st server_name = some inst) :
    enable_catalog_server outcome catalog st server_name = (st, .ok inst.config) ∧
    (enable_catalog_server outcome catalog st server_name).1.spawnCount
      = st.spawnCount ∧
    (enable_catalog_server outcome catalog st server_name).1.running
      = st.running := by
  have hisSome : is_server_running st server_name = true := by
    unfold get_running_server at hrun
    unfold is_server_running
    cases hfind : st.running.find? (fun p => p.1 == server_name) with
    | none => rw [hfind] at hrun; cases hrun
    | some p => simp
  have hmain : enable_catalog_server outcome catalog st server_name
      = (st, .ok inst.config) := by
    unfold enable_catalog_server
    rw [hcat, if_pos hisSome, hrun]
  exact ⟨hmain, by rw [hmain], by rw [hmain]⟩

/-- Witness for C8 at a concrete one-entry catalog with the server already
running. -/
theorem enable_catalog_server_idempotent_witness :
    ([("tavily", mkPlainServer "tavily")].find?
        (fun p => p.1 == "tavily") = some ("tavily", mkPlainServer "tavily") ∧
      get_running_server
        (LifecycleState.mk
          [("tavily", ServerInstance.mk "tavily" (mkPlainServer "tavily") 0)]
          [] 1) "tavily"
        = some (ServerInstance.mk "tavily" (mkPlainServer "tavily") 0)) ∧
    enable_catalog_server (fun _ => none)
        [("tavily", mkPlainServer "tavily")]
        (LifecycleState.mk
          [("tavily", ServerInstance.mk "tavily" (mkPlainServer "tavily") 0)]
          [] 1) "tavily"
      = (LifecycleState.mk
          [("tavily", ServerInstance.mk "tavily" (mkPlainServer "tavily") 0)]
          [] 1,
         .ok (ServerInstance.mk "tavily" (mkPlainServer "tavily") 0).config) ∧
    (enable_catalog_server (fun _ => none)
        [("tavily", mkPlainServer "tavily")]
        (LifecycleState.mk
          [("tavily", ServerInstance.mk "tavily" (mkPlainServer "tavily") 0)]
          [] 1) "tavily").1.spawnCount = 1 := by
  have h := enable_catalog_server_idempotent (fun _ => none)
    [("tavily", mkPlainServer "tavily")]
    (LifecycleState.mk
      [("tavily", ServerInstance.mk "tavily" (mkPlainServer "tavily") 0)]
      [] 1) "tavily" ("tavily", mkPlainServer "tavily")
    (ServerInstance.mk "tavily" (mkPlainServer "tavily") 0) rfl rfl
  exact ⟨⟨rfl, rfl⟩, h.1, h.2.1⟩

/-! ## Lemmas about result collection in initialize_mcp_toolsets -/

lemma collect_results_toolsets (rs : List StartOneResult) :
    ∀ st : ToolsetsState,
      (collect_results st rs).mcp_toolsets
        = st.mcp_toolsets ++ rs.filterMap okServerOf := by
  induction rs with
  | nil => intro st; simp [collect_results]
  | cons r rs ih =>
      intro st
      cases r with
      | ok sid srv stk =>
          have h := ih { st with
            mcp_toolsets := st.mcp_toolsets ++ [srv]
            exit_stacks := st.exit_stacks ++ [stk] }
          simp only [collect_results, List.foldl_cons] at h ⊢
          rw [h]
          simp [okServerOf]
      | err sid reason =>
          have h := ih { st with
            failed_servers := dictInsert st.failed_servers sid reason }
          simp only [collect_results, List.foldl_cons] at h ⊢
          rw [h]
          simp [okServerOf]

lemma collect_results_failed (rs : List StartOneResult) :
    ∀ st : ToolsetsState,
      (collect_results st rs).failed_servers
        = (rs.filterMap errOf).foldl (fun m p => dictInsert m p.1 p.2)
            st.failed_servers := by
  induction rs with
  | nil => intro st; simp [collect_results]
  | cons r rs ih =>
      intro st
      cases r with
      | ok sid srv stk =>
          have h := ih { st with
            mcp_toolsets := st.mcp_toolsets ++ [srv]
            exit_stacks := st.exit_stacks ++ [stk] }
          simp only [collect_results, List.foldl_cons] at h ⊢
          rw [h]
          simp [errOf]
      | err sid reason =>
          have h := ih { st with
            failed_servers := dictInsert st.failed_servers sid reason }
          simp only [collect_results, List.foldl_cons] at h ⊢
          rw [h]
          simp [errOf]

lemma initialize_toolsets_eq (outcome : Server → StartOutcome)
    (servers : List Server) (hne : servers.isEmpty = false) :
    (initialize_mcp_toolsets outcome servers ToolsetsState.initial).mcp_toolsets
      = (servers.map (start_one outcome)).filterMap okServerOf := by
  unfold initialize_mcp_toolsets
  simp [ToolsetsState.initial, hne, collect_results_toolsets]

lemma initialize_failed_eq (outcome : Server → StartOutcome)
    (servers : List Server) (hne : servers.isEmpty = false) :
    (initialize_mcp_toolsets outcome servers ToolsetsState.initial).failed_servers
      = ((servers.map (start_one outcome)).filterMap errOf).foldl
          (fun m p => dictInsert m p.1 p.2) [] := by
  unfold initialize_mcp_toolsets
  simp [ToolsetsState.initial, hne, collect_results_failed]

lemma mem_ready_iff (outcome : Server → StartOutcome) (servers : List Server)
    (s : Server) :
    s ∈ (servers.map (start_one outcome)).filterMap okServerOf ↔
      s ∈ servers ∧ outcome s = .success := by
  rw [List.filterMap_map]
  simp only [List.mem_filterMap, Function.comp]
  constructor
  · rintro ⟨a, ha, hsome⟩
    cases ho : outcome a with
    | success =>
        have : a = s := by
          simp [start_one, ho, okServerOf] at hsome
          exact hsome
        subst this
        exact ⟨ha, ho⟩
    | timeout => simp [start_one, ho, okServerOf] at hsome
    | failure n m => simp [start_one, ho, okServerOf] at hsome
  · rintro ⟨hs, ho⟩
    exact ⟨s, hs, by simp [start_one, ho, okServerOf]⟩

lemma err_keys_sublist (outcome : Server → StartOutcome) :
    ∀ servers : List Server,
      ((servers.filterMap (fun s => errOf (start_one outcome s))).map
        Prod.fst).Sublist (servers.map Server.id) := by
  intro servers
  induction servers with
  | nil => simp
  | cons s ss ih =>
      cases ho : outcome s with
      | success =>
          simp only [List.filterMap_cons, start_one, ho, errOf, List.map_cons]
          exact ih.cons s.id
      | timeout =>
          simp only [List.filterMap_cons, start_one, ho, errOf, List.map_cons]
          exact ih.cons₂ s.id
      | failure n m =>
          simp only [List.filterMap_cons, start_one, ho, errOf, List.map_cons]
          exact ih.cons₂ s.id

lemma mem_err_keys_iff (outcome : Server → StartOutcome)
    (servers : List Server) (k : String) :
    k ∈ (servers.filterMap (fun s => errOf (start_one outcome s))).map
        Prod.fst ↔
      ∃ s ∈ servers, outcome s ≠ .success ∧ s.id = k := by
  simp only [List.mem_map, List.mem_filterMap]
  constructor
  · rintro ⟨p, ⟨a, ha, hsome⟩, hfst⟩
    cases ho : outcome a with
    | success => simp [start_one, ho, errOf] at hsome
    | timeout =>
        refine ⟨a, ha, by simp [ho], ?_⟩
        simp [start_one, ho, errOf] at hsome
        rw [← hfst, ← hsome]
    | failure n m =>
        refine ⟨a, ha, by simp [ho], ?_⟩
        simp [start_one, ho, errOf] at hsome
        rw [← hfst, ← hsome]
  · rintro ⟨s, hs, hns, hid⟩
    cases ho : outcome s with
    | success => exact absurd ho hns
    | timeout =>
        exact ⟨(s.id,
          "Timeout after " ++ toString MCP_SERVER_STARTUP_TIMEOUT ++ "s"),
          ⟨s, hs, by simp [start_one, ho, errOf]⟩, hid⟩
    | failure n m =>
        exact ⟨(s.id, n ++ ": " ++ pyTruncate100 m),
          ⟨s, hs, by simp [start_one, ho, errOf]⟩, hid⟩

lemma initialize_failed_entries (outcome : Server → StartOutcome)
    (servers : List Server) (hne : servers.isEmpty = false)
    (hnodup : (servers.map Server.id).Nodup) :
    (initialize_mcp_toolsets outcome servers
        ToolsetsState.initial).failed_servers
      = servers.filterMap (fun s => errOf (start_one outcome s)) := by
  rw [initialize_failed_eq outcome servers hne, List.filterMap_map]
  have hkeys : ((servers.filterMap
      (fun s => errOf (start_one outcome s))).map Prod.fst).Nodup :=
    (err_keys_sublist outcome servers).nodup hnodup
  have h := foldl_dictInsert_fresh
    (servers.filterMap (fun s => errOf (start_one outcome s))) [] hkeys
    (by intro k _ hk; simp at hk)
  simpa using h

/-! ## C1 : startup is a complete report, never a first-failure abort -/

/-- C1: `initialize_mcp_toolsets` never turns one server's startup failure
into an exception (it is a total function of the per-server outcomes), and
after it completes every configured server lands in exactly one outcome set:
a successfully started server is in `_mcp_toolsets` and absent from
`_failed_servers`, and a failed one is absent from `_mcp_toolsets` and has a
reason recorded under its id in `_failed_servers`. -/
theorem initialize_mcp_toolsets_complete_report
    (outcome : Server → StartOutcome) (servers : List Server) (s : Server)
    (hnodup : (servers.map Server.id).Nodup) (hs : s ∈ servers) :
    (outcome s = .success →
      s ∈ (initialize_mcp_toolsets outcome servers
            ToolsetsState.initial).mcp_toolsets ∧
      dictGet (initialize_mcp_toolsets outcome servers
            ToolsetsState.initial).failed_servers s.id = none) ∧
    (outcome s ≠ .success →
      s ∉ (initialize_mcp_toolsets outcome servers
            ToolsetsState.initial).mcp_toolsets ∧
      ∃ reason, dictGet (initialize_mcp_toolsets outcome servers
            ToolsetsState.initial).failed_servers s.id = some reason) := by
  have hne : servers.isEmpty = false := by
    cases servers with
    | nil => cases hs
    | cons a l => rfl
  have htool := initialize_toolsets_eq outcome servers hne
  have hfail := initialize_failed_entries outcome servers hne hnodup
  have hkeys : ((servers.filterMap
      (fun s' => errOf (start_one outcome s'))).map Prod.fst).Nodup :=
    (err_keys_sublist outcome servers).nodup hnodup
  constructor
  · intro ho
    constructor
    · rw [htool]
      exact (mem_ready_iff outcome servers s).mpr ⟨hs, ho⟩
    · rw [hfail]
      apply dictGet_eq_none_of_not_mem
      rw [mem_err_keys_iff]
      rintro ⟨s', hs', hns', hid⟩
      have heq : s' = s := List.inj_on_of_nodup_map hnodup hs' hs hid
      exact hns' (by rw [heq]; exact ho)
  · intro ho
    constructor
    · rw [htool]
      intro hmem
      exact ho ((mem_ready_iff outcome servers s).mp hmem).2
    · rw [hfail]
      cases hoc : outcome s with
      | success => exact absurd hoc ho
      | timeout =>
          refine ⟨"Timeout after " ++ toString MCP_SERVER_STARTUP_TIMEOUT ++ "s",
            dictGet_of_mem_nodup hkeys ?_⟩
          exact List.mem_filterMap.mpr ⟨s, hs, by simp [start_one, hoc, errOf]⟩
      | failure n m =>
          refine ⟨n ++ ": " ++ pyTruncate100 m, dictGet_of_mem_nodup hkeys ?_⟩
          exact List.mem_filterMap.mpr ⟨s, hs, by simp [start_one, hoc, errOf]⟩

/-- Witness for C1: two servers, one succeeding and one failing; the failed
one is reported in the failed map and kept out of the ready list. -/
theorem initialize_mcp_toolsets_complete_report_witness :
    ((([Server.mk "a" 0, Server.mk "b" 1]).map Server.id).Nodup ∧
      Server.mk "b" 1 ∈ [Server.mk "a" 0, Server.mk "b" 1] ∧
      (fun s => if s.id = "a" then StartOutcome.success
        else StartOutcome.failure "RuntimeError" "boom") (Server.mk "b" 1)
        ≠ .success) ∧
    (Server.mk "b" 1 ∉ (initialize_mcp_toolsets
        (fun s => if s.id = "a" then StartOutcome.success
          else StartOutcome.failure "RuntimeError" "boom")
        [Server.mk "a" 0, Server.mk "b" 1]
        ToolsetsState.initial).mcp_toolsets ∧
      ∃ reason, dictGet (initialize_mcp_toolsets
        (fun s => if s.id = "a" then StartOutcome.success
          else StartOutcome.failure "RuntimeError" "boom")
        [Server.mk "a" 0, Server.mk "b" 1]
        ToolsetsState.initial).failed_servers (Server.mk "b" 1).id
          = some reason) :=
  ⟨⟨by decide, by decide, by decide⟩,
    (initialize_mcp_toolsets_complete_report
      (fun s => if s.id = "a" then StartOutcome.success
        else StartOutcome.failure "RuntimeError" "boom")
      [Server.mk "a" 0, Server.mk "b" 1] (Server.mk "b" 1)
      (by decide) (by decide)).2 (by decide)⟩

/-! ## C4 : the timeout reason string -/

/-- C4 counterexample: a server whose startup attempt times out is recorded
with the reason `"Timeout after 300s"` (capital T), not the claimed
`"timeout after 300s"`. -/
theorem timeout_reason_capitalization_counterexample :
    dictGet (initialize_mcp_toolsets (fun _ => .timeout) [Server.mk "srv" 0]
        ToolsetsState.initial).failed_servers "srv"
      = some "Timeout after 300s" ∧
    ("Timeout after 300s" : String) ≠ "timeout after 300s" :=
  ⟨by decide, by decide⟩

/-- C4 as amended: a server whose startup attempt exceeds
`MCP_SERVER_STARTUP_TIMEOUT` is recorded in the failed map under its id with
reason `"Timeout after Ns"` (N the timeout value, capital T), and its
toolset is not added to the ready list. -/
theorem timeout_records_capital_reason
    (outcome : Server → StartOutcome) (servers : List Server) (s : Server)
    (hnodup : (servers.map Server.id).Nodup) (hs : s ∈ servers)
    (ho : outcome s = .timeout) :
    dictGet (initialize_mcp_toolsets outcome servers
        ToolsetsState.initial).failed_servers s.id
      = some ("Timeout after " ++ toString MCP_SERVER_STARTUP_TIMEOUT ++ "s") ∧
    s ∉ (initialize_mcp_toolsets outcome servers
        ToolsetsState.initial).mcp_toolsets := by
  have hne : servers.isEmpty = false := by
    cases servers with
    | nil => cases hs
    | cons a l => rfl
  have hkeys : ((servers.filterMap
      (fun s' => errOf (start_one outcome s'))).map Prod.fst).Nodup :=
    (err_keys_sublist outcome servers).nodup hnodup
  constructor
  · rw [initialize_failed_entries outcome servers hne hnodup]
    apply dictGet_of_mem_nodup hkeys
    exact List.mem_filterMap.mpr ⟨s, hs, by simp [start_one, ho, errOf]⟩
  · rw [initialize_toolsets_eq outcome servers hne]
    intro hmem
    have := ((mem_ready_iff outcome servers s).mp hmem).2
    rw [ho] at this
    cases this

/-- Witness for C4's amended statement: one timing-out server. -/
theorem timeout_records_capital_reason_witness :
    ((([Server.mk "srv" 0]).map Server.id).Nodup ∧
      Server.mk "srv" 0 ∈ [Server.mk "srv" 0] ∧
      (fun (_ : Server) => StartOutcome.timeout) (Server.mk "srv" 0)
        = .timeout) ∧
    (dictGet (initialize_mcp_toolsets (fun _ => .timeout) [Server.mk "srv" 0]
        ToolsetsState.initial).failed_servers (Server.mk "srv" 0).id
      = some ("Timeout after " ++ toString MCP_SERVER_STARTUP_TIMEOUT ++ "s") ∧
    Server.mk "srv" 0 ∉ (initialize_mcp_toolsets (fun _ => .timeout)
        [Server.mk "srv" 0] ToolsetsState.initial).mcp_toolsets) :=
  ⟨⟨by decide, by decide, rfl⟩,
    timeout_records_capital_reason (fun _ => .timeout) [Server.mk "srv" 0]
      (Server.mk "srv" 0) (by decide) (by decide) rfl⟩

/-! ## Lemmas about the shutdown loop -/

lemma handle_close_exn_ok (i : Nat) (e : CloseExn) :
    ∃ log, handle_close_exn i e = .ok log := by
  cases e with
  | runtimeError m =>
      unfold handle_close_exn
      by_cases h : (m.toLower.splitOn "cancel scope").length > 1
      · exact ⟨_, if_pos h⟩
      · exact ⟨_, if_neg h⟩
  | otherExn n m => exact ⟨_, rfl⟩

lemma close_fold_ok (close : Stack → CloseOutcome) :
    ∀ (pairs : List (Nat × Stack)) (acc : List Stack) (logs : List CloseLog),
      ∃ logs2, pairs.foldl (close_step close) (.ok (acc, logs))
        = .ok (acc ++ pairs.map Prod.snd, logs2) := by
  intro pairs
  induction pairs with
  | nil => intro acc logs; exact ⟨logs, by simp⟩
  | cons p ps ih =>
      intro acc logs
      rw [List.foldl_cons]
      cases hc : close p.2 with
      | none =>
          obtain ⟨logs2, h2⟩ := ih (acc ++ [p.2]) (logs ++ [.closedOk p.1])
          refine ⟨logs2, ?_⟩
          simp only [close_step, hc]
          rw [h2]
          simp
      | some e =>
          obtain ⟨log, hlog⟩ := handle_close_exn_ok p.1 e
          obtain ⟨logs2, h2⟩ := ih (acc ++ [p.2]) (logs ++ [log])
          refine ⟨logs2, ?_⟩
          simp only [close_step, hc, hlog]
          rw [h2]
          simp

lemma close_all_stacks_ok (close : Stack → CloseOutcome) (l : List Stack) :
    ∃ logs, close_all_stacks close l = .ok (l, logs) := by
  obtain ⟨logs2, h⟩ := close_fold_ok close l.enum [] []
  refine ⟨logs2, ?_⟩
  unfold close_all_stacks
  rw [h]
  simp [List.enum_map_snd]

/-! ## C2 : shutdown empties the ready view -/

/-- C2: after `shutdown_mcp_toolsets` completes, `get_mcp_toolsets` returns
the empty list and `get_mcp_toolsets_status` reports a ready count of zero,
whatever was registered beforehand and however the individual closes
behave. -/
theorem shutdown_mcp_toolsets_clears_ready (close : Stack → CloseOutcome)
    (st : ToolsetsState) :
    ∃ (st2 : ToolsetsState) (attempted : List Stack) (logs : List CloseLog),
      shutdown_mcp_toolsets close st = .ok (st2, attempted, logs) ∧
      get_mcp_toolsets st2 = [] ∧
      (get_mcp_toolsets_status st2).ready_count = 0 ∧
      st2.failed_servers = [] ∧
      st2.initialization_started = false := by
  obtain ⟨logs, h⟩ := close_all_stacks_ok close st.exit_stacks
  refine ⟨ToolsetsState.mk [] [] [] false, st.exit_stacks, logs, ?_, rfl,
    rfl, rfl, rfl⟩
  unfold shutdown_mcp_toolsets
  rw [h]

/-! ## C3 : shutdown swallows per-stack close errors -/

/-- C3: `shutdown_mcp_toolsets` never propagates an exception raised while
closing one server's exit stack (every `RuntimeError` — including the
"cancel scope" ones — and every other `Exception` is handled inside the
loop), and every registered exit stack's close is still attempted: the
result is always `.ok` and the attempted-close list is exactly
`_exit_stacks`, for every close-outcome oracle. -/
theorem shutdown_mcp_toolsets_swallows_close_errors
    (close : Stack → CloseOutcome) (st : ToolsetsState) :
    ∃ (st2 : ToolsetsState) (logs : List CloseLog),
      shutdown_mcp_toolsets close st = .ok (st2, st.exit_stacks, logs) := by
  obtain ⟨logs, h⟩ := close_all_stacks_ok close st.exit_stacks
  refine ⟨ToolsetsState.mk [] [] [] false, logs, ?_⟩
  unfold shutdown_mcp_toolsets
  rw [h]

end AgentRuntimes
